import Mathlib

/-!
Verification development for the review-agent batch backend.

The definitions below are a shallow embedding of the Python sources:
  * `amazon_batch_workflow.py` — the LangGraph batch state machine
    (`AmazonBatchWorkflow`, `SessionManager`, `scrape_router`, `pick_router`,
    `_goto_product_with_retries`, `scrape_product`, `persist_result`,
    `advance_index`, `finalize`, `run`),
  * `amazon_hybrid_workflow.py` — the analysis nodes
    (`sentiment_analysis_node`, `theme_analysis_node`),
  * `api/jobs.py` — `JobManager.cancel`,
  * `api/server.py` — `create_job`.

Numbers that the Python code handles as floats (ratings, backoff delays)
are embedded as exact rationals; the only operations performed on them are
comparisons with zero, multiplication by 1.8 and equality, which floats and
rationals agree on for the values involved.  Timestamps, log output and
progress-event emission are side effects no claim observes and are omitted;
external collaborators (the Playwright driver, the language model, the file
system) are parameters of the embedding (environment records), mirroring
exactly how the orchestrator consumes their results.
-/

namespace ReviewAgent

/-- A JSON value, the shape of `json.loads` output used by the analysis
nodes of `amazon_hybrid_workflow.py`. -/
inductive JVal where
  | jnull
  | jbool (b : Bool)
  | jnum (q : ℚ)
  | jstr (s : String)
  | jarr (elts : List JVal)
  | jobj (fields : List (String × JVal))

/-- One review as produced by `extract_reviews`: the fields the analysis
nodes read (`text`, `rating`). A Python `None`/missing text is embedded as
the empty string, matching the truthiness tests `r.get('text')`. -/
structure Review where
  text : String
  rating : ℚ
deriving DecidableEq, Repr

/-- The dictionary returned by `AmazonScraperReal.extract_product_info`:
`title` defaults to `"N/A"`, `rating_average` to `0.0` (the scraper always
stores a float), `price` may be `None`. -/
structure ProductInfo where
  title : String
  rating_average : ℚ
  total_reviews : Nat
  price : Option String
deriving DecidableEq, Repr

/-- The full outcome of a successful navigation in `scrape_product`:
`extract_product_info` plus the best-effort `extract_reviews` result
(empty on any review-extraction error, per the inner try/except). -/
structure Extraction where
  info : ProductInfo
  reviews : List Review
deriving DecidableEq, Repr

/-- The `scraped_data` dictionary built in `scrape_product`
(`amazon_batch_workflow.py` lines 263-272). -/
structure ScrapedData where
  asin : String
  title : String
  rating_average : ℚ
  total_reviews : Nat
  price : Option String
  reviews : List Review
  authenticated : Bool
deriving DecidableEq, Repr

/-- The success predicate of `scrape_product` (line 284):
`has_core = scraped_data.get("title") != "N/A" and (scraped_data.get("rating_average") or 0) > 0`.
The scraper always supplies a numeric `rating_average`, for which
`(x or 0) > 0` is equivalent to `x > 0`. -/
def hasCore (title : String) (rating_average : ℚ) : Bool :=
  decide (title ≠ "N/A" ∧ 0 < rating_average)

/-- The `product_data` section of the report built by
`report_generation_node` (`amazon_hybrid_workflow.py` lines 643-650). -/
structure ProductData where
  title : String
  rating_average : ℚ
  total_reviews : Nat
  price : Option String
  reviews_extracted : Nat
  authenticated_extraction : Bool
deriving DecidableEq, Repr

/-- The per-item report assembled by `report_generation_node`, restricted
to the sections some claim observes.  The `metadata`/`performance_metrics`
sections (timestamps and durations) and the `llm_analysis` display section
are carried by no claim and are omitted; `error_summary.analysis_errors`
is likewise unobserved. -/
structure FinalReport where
  asin : Option String
  product_data : ProductData
  scraping_success : Bool
  scraping_errors : List String
deriving DecidableEq, Repr

/-- One entry of the batch summary, appended by `persist_result`
(`amazon_batch_workflow.py` lines 394-403). -/
structure ResultEntry where
  asin : String
  title : String
  rating_average : ℚ
  total_reviews : Nat
  reviews_extracted : Nat
  path : Option String
  success : Bool
  errors : List String
deriving DecidableEq, Repr

/-- The LangGraph channel state `BatchState` of `amazon_batch_workflow.py`,
restricted to the channels the orchestration logic reads or writes.
`scraped_data = {}` is embedded as `none`. -/
structure BatchSt where
  asins : List String
  i : Nat
  session_id : String
  auth_ok : Bool
  current_asin : Option String
  scraped_data : Option ScrapedData
  scraping_success : Bool
  scraping_errors : List String
  sentiment_analysis : Option JVal
  theme_analysis : Option JVal
  final_report : Option FinalReport
  results : List ResultEntry
  retries : Nat
  last_error : Option String

/-- The nodes of the compiled LangGraph (`build_graph`), plus `terminal`
(the END node) and `crashed` (an uncaught `AssertionError` escaping a
node, which aborts the run). -/
inductive BNode where
  | openSession
  | pickNext
  | scrape
  | sentiment
  | theme
  | buildReport
  | persistResult
  | advance
  | finalizeN
  | terminal
  | crashed
deriving DecidableEq, Repr

/-- The machine: current node, channel state, and ghost observations
(scrape-node execution count, persisted-write count, the sequence of
`_goto_product_with_retries` calls with their `max_attempts` budgets, the
block-triggered `perform_login` calls, and the identifiers each analysis
node ran for).  The batch summary written by `finalize` is recorded in
`summary`. -/
structure Machine where
  node : BNode
  st : BatchSt
  scrapeCount : Nat
  persistCount : Nat
  gotoLog : List (String × Nat)
  loginLog : List String
  sentimentLog : List String
  themeLog : List String
  summary : Option (Nat × List ResultEntry)

/-- Outcome of one `scrape_product` execution as decided by the external
world: either the first `_goto_product_with_retries` (budget 3) succeeds
and extraction runs; or navigation fails and `_detect_auth_block` is
false; or a block is detected, `perform_login` is re-attempted and the
second `_goto_product_with_retries` (budget 2) succeeds or fails; or some
collaborator raises, landing in the node's `except` clause. -/
inductive ScrapeBehavior where
  | navOk (ext : Extraction)
  | navFailNoBlock
  | navFailBlockedRetryOk (loginOk : Bool) (ext : Extraction)
  | navFailBlockedRetryFail (loginOk : Bool)
  | raiseExn (msg : String)

/-- The external collaborators of one batch run, indexed by invocation
counts: `behavior k` drives the `k`-th execution of the scrape node. -/
structure BatchEnv where
  auth_ok : Bool
  behavior : Nat → ScrapeBehavior
  sentimentResult : Nat → JVal
  themeResult : Nat → JVal
  persistOk : Nat → Bool

/-- State update of `scrape_product` when extraction ran (lines 262-302):
builds `scraped_data`, computes `has_core`, and increments `retries` only
when `has_core` is false. -/
def applyExtraction (st : BatchSt) (a : String) (ext : Extraction) : BatchSt :=
  let sd : ScrapedData :=
    { asin := a
      title := ext.info.title
      rating_average := ext.info.rating_average
      total_reviews := ext.info.total_reviews
      price := ext.info.price
      reviews := ext.reviews
      authenticated := st.auth_ok }
  let hc := hasCore sd.title sd.rating_average
  { st with
      scraped_data := some sd
      scraping_success := hc
      scraping_errors := if hc then [] else ["Core product data missing"]
      retries := if hc then st.retries else st.retries + 1 }

/-- State update of `scrape_product` when navigation failed outright
(lines 252-258).  Note: this return dictionary carries no `retries` key,
so the retry counter is left unchanged. -/
def navFailUpdate (st : BatchSt) : BatchSt :=
  { st with
      scraped_data := none
      scraping_success := false
      scraping_errors := ["Product navigation failed (after retries)"] }

/-- State update of the `except` clause of `scrape_product`
(lines 304-314): records the error and increments `retries`. -/
def exnUpdate (st : BatchSt) (msg : String) : BatchSt :=
  { st with
      scraped_data := none
      scraping_success := false
      scraping_errors := [msg]
      last_error := some msg
      retries := st.retries + 1 }

/-- One execution of the body of `scrape_product` under a given behavior;
returns the updated state, the `_goto_product_with_retries` calls made
(identifier, `max_attempts`), and the block-triggered `perform_login`
calls made.  The first navigation uses budget 3 (line 242); after a
detected block, login is re-attempted and navigation retried with budget
2 (line 251).  In the `raiseExn` case the exception is modelled as raised
by extraction, after the first successful navigation. -/
def applyScrape (st : BatchSt) (a : String) (b : ScrapeBehavior) :
    BatchSt × List (String × Nat) × List String :=
  match b with
  | .navOk ext => (applyExtraction st a ext, [(a, 3)], [])
  | .navFailNoBlock => (navFailUpdate st, [(a, 3)], [])
  | .navFailBlockedRetryOk _ ext => (applyExtraction st a ext, [(a, 3), (a, 2)], [a])
  | .navFailBlockedRetryFail _ => (navFailUpdate st, [(a, 3), (a, 2)], [a])
  | .raiseExn msg => (exnUpdate st msg, [(a, 3)], [])

/-- The conditional edge `scrape_router` (lines 529-537): on failure,
retry the scrape while `retries < 1`, otherwise persist, skipping
analysis; on success, go to sentiment analysis. -/
def scrapeRouter (st : BatchSt) : BNode :=
  if !st.scraping_success then
    if st.retries < 1 then .scrape else .persistResult
  else .sentiment

/-- The per-item reset performed by `pick_next_asin` when an identifier is
selected (lines 209-219). -/
def pickReset (st : BatchSt) (a : String) : BatchSt :=
  { st with
      current_asin := some a
      scraped_data := none
      scraping_success := false
      scraping_errors := []
      sentiment_analysis := none
      theme_analysis := none
      final_report := none
      retries := 0
      last_error := none }

/-- The identifier `persist_result` keys the entry by (line 350):
`state.get("current_asin") or state.get("scraped_data", {}).get("asin")`,
with Python truthiness (empty string and `None` are falsy). -/
def persistAsin (st : BatchSt) : Option String :=
  let fallback : Option String :=
    match st.scraped_data with
    | some sd => if sd.asin = "" then none else some sd.asin
    | none => none
  match st.current_asin with
  | some a => if a = "" then fallback else some a
  | none => fallback

/-- The `product_data` section built by `report_generation_node` from
`scraped_data` (with `{}` giving every default). -/
def mkProductData (sd : Option ScrapedData) : ProductData :=
  match sd with
  | some s =>
      { title := s.title
        rating_average := s.rating_average
        total_reviews := s.total_reviews
        price := s.price
        reviews_extracted := s.reviews.length
        authenticated_extraction := s.authenticated }
  | none =>
      { title := "N/A"
        rating_average := 0
        total_reviews := 0
        price := some "N/A"
        reviews_extracted := 0
        authenticated_extraction := false }

/-- The report assembled by `build_report` via `report_generation_node`
from the shim state (restricted to observed sections). -/
def mkReport (st : BatchSt) : FinalReport :=
  { asin := st.current_asin
    product_data := mkProductData st.scraped_data
    scraping_success := st.scraping_success
    scraping_errors := st.scraping_errors }

/-- The deterministic per-item report path of `persist_result` (line 360),
with the timestamp component elided. -/
def reportPath (a : String) : String :=
  "output/batch_report_" ++ a ++ ".json"

/-- The summary entry appended by `persist_result` (lines 393-403):
fields default when no report was built. -/
def mkEntry (a : String) (st : BatchSt) (path : Option String) : ResultEntry :=
  let product : Option ProductData := st.final_report.map (·.product_data)
  { asin := a
    title := match product with | some p => p.title | none => "N/A"
    rating_average := match product with | some p => p.rating_average | none => 0
    total_reviews := match product with | some p => p.total_reviews | none => 0
    reviews_extracted := match product with | some p => p.reviews_extracted | none => 0
    path := path
    success := st.scraping_success
    errors := st.scraping_errors }

/-- Execution of the scrape node for a (truthy) current identifier:
apply the behavior-driven `scrape_product` body, record the navigation
and login calls, and follow `scrape_router` on the merged state. -/
def scrapeStep (env : BatchEnv) (m : Machine) (a : String) : Machine :=
  let r := applyScrape m.st a (env.behavior m.scrapeCount)
  { m with
      st := r.1
      node := scrapeRouter r.1
      scrapeCount := m.scrapeCount + 1
      gotoLog := m.gotoLog ++ r.2.1
      loginLog := m.loginLog ++ r.2.2 }

/-- One step of the compiled graph: executes the current node and follows
the (conditional) edge of `build_graph`.  `pick_next_asin` and its router
both test `i >= len(asins)`; `scrape_product` asserts the current
identifier is truthy (line 223) and crashes the run otherwise. -/
def step (env : BatchEnv) (m : Machine) : Machine :=
  match m.node with
  | .openSession =>
      { m with st := { m.st with auth_ok := env.auth_ok }, node := .pickNext }
  | .pickNext =>
      if h : m.st.i < m.st.asins.length then
        { m with st := pickReset m.st (m.st.asins.get ⟨m.st.i, h⟩), node := .scrape }
      else
        { m with node := .finalizeN }
  | .scrape =>
      match m.st.current_asin with
      | none => { m with node := .crashed }
      | some a =>
          if a = "" then { m with node := .crashed }
          else scrapeStep env m a
  | .sentiment =>
      { m with
          st := { m.st with
                    sentiment_analysis := some (env.sentimentResult m.sentimentLog.length) }
          node := .theme
          sentimentLog := m.sentimentLog ++ [m.st.current_asin.getD ""] }
  | .theme =>
      { m with
          st := { m.st with
                    theme_analysis := some (env.themeResult m.themeLog.length) }
          node := .buildReport
          themeLog := m.themeLog ++ [m.st.current_asin.getD ""] }
  | .buildReport =>
      { m with st := { m.st with final_report := some (mkReport m.st) }, node := .persistResult }
  | .persistResult =>
      match persistAsin m.st with
      | none => { m with node := .advance }
      | some a =>
          let path : Option String :=
            match m.st.final_report with
            | some _ => if env.persistOk m.persistCount then some (reportPath a) else none
            | none => none
          { m with
              st := { m.st with results := m.st.results ++ [mkEntry a m.st path] }
              node := .advance
              persistCount := m.persistCount + 1 }
  | .advance =>
      { m with st := { m.st with i := m.st.i + 1 }, node := .pickNext }
  | .finalizeN =>
      { m with summary := some (m.st.results.length, m.st.results), node := .terminal }
  | .terminal => m
  | .crashed => m

/-- The initial channel state of `run` (lines 564-580). -/
def initSt (asins : List String) : BatchSt :=
  { asins := asins
    i := 0
    session_id := "sess_0"
    auth_ok := false
    current_asin := none
    scraped_data := none
    scraping_success := false
    scraping_errors := []
    sentiment_analysis := none
    theme_analysis := none
    final_report := none
    results := []
    retries := 0
    last_error := none }

/-- The machine at the entry point of the compiled graph. -/
def initMachine (asins : List String) : Machine :=
  { node := .openSession
    st := initSt asins
    scrapeCount := 0
    persistCount := 0
    gotoLog := []
    loginLog := []
    sentimentLog := []
    themeLog := []
    summary := none }

/-- Iterate the graph up to a step bound, stopping at END or on a crash. -/
def bsteps (env : BatchEnv) : Nat → Machine → Machine
  | 0, m => m
  | n + 1, m =>
      if m.node = .terminal ∨ m.node = .crashed then m
      else bsteps env n (step env m)

/-- C1: the per-item success flag computed by `scrape_product` is true
exactly when the extracted title differs from `"N/A"` and the rating is
strictly positive, and `scrape_router` routes to the sentiment-analysis
node exactly when that flag is true; an item whose flag is false is
routed to a retry of the scrape node or to result persistence, never to
an analysis node. -/
theorem scrape_success_predicate_decides_routing :
    (∀ (st : BatchSt) (a : String) (ext : Extraction),
        (applyExtraction st a ext).scraping_success
          = decide (ext.info.title ≠ "N/A" ∧ 0 < ext.info.rating_average))
    ∧ (∀ (st : BatchSt) (a : String) (lo : Bool) (ext : Extraction),
        (applyScrape st a (.navOk ext)).1 = applyExtraction st a ext
          ∧ (applyScrape st a (.navFailBlockedRetryOk lo ext)).1 = applyExtraction st a ext)
    ∧ (∀ st : BatchSt, scrapeRouter st = BNode.sentiment ↔ st.scraping_success = true)
    ∧ (∀ st : BatchSt, st.scraping_success = false →
        scrapeRouter st = BNode.scrape ∨ scrapeRouter st = BNode.persistResult) := by
  refine ⟨fun st a ext => rfl, fun st a lo ext => ⟨rfl, rfl⟩, fun st => ?_, fun st h => ?_⟩
  · cases hs : st.scraping_success
    · simp only [scrapeRouter, hs, Bool.not_false, if_true]
      constructor
      · intro he
        exact absurd he (by split <;> simp)
      · intro he
        cases he
    · simp [scrapeRouter, hs]
  · rcases Nat.lt_or_ge st.retries 1 with hr | hr
    · left
      simp [scrapeRouter, h, hr]
    · right
      simp [scrapeRouter, h, Nat.not_lt.mpr hr]

/-- C1 witness: a state whose success flag is false is routed away from
analysis (here: the initial state, routed to a scrape retry). -/
theorem scrape_success_predicate_decides_routing_witness :
    scrapeRouter (initSt ["B08TEST"]) = BNode.scrape
      ∨ scrapeRouter (initSt ["B08TEST"]) = BNode.persistResult :=
  scrape_success_predicate_decides_routing.2.2.2 (initSt ["B08TEST"]) rfl

/-- An extraction whose core data is missing: the placeholder title and a
zero rating, as when the product page did not render its data. -/
def coreFailExtraction : Extraction :=
  { info := { title := "N/A", rating_average := 0, total_reviews := 0, price := none }
    reviews := [] }

/-- Environment in which every scrape execution extracts a record with
missing core data. -/
def envCoreFail : BatchEnv :=
  { auth_ok := true
    behavior := fun _ => .navOk coreFailExtraction
    sentimentResult := fun _ => .jnull
    themeResult := fun _ => .jnull
    persistOk := fun _ => true }

/-- Environment in which every navigation fails outright with no block
detected. -/
def envNavFail : BatchEnv :=
  { envCoreFail with behavior := fun _ => .navFailNoBlock }

/-- Environment in which every navigation fails with a block detected and
the post-login retry also fails. -/
def envBlockedFail : BatchEnv :=
  { envCoreFail with behavior := fun _ => .navFailBlockedRetryFail true }

/-- C2 (code-bug evidence): `scrape_product` increments `retries` before
`scrape_router` runs, so after a core-data extraction failure the router
already sees `retries = 1` and goes straight to persistence — the
identifier is scraped exactly once, not twice, and the
`scrape_product -> scrape_product` retry edge declared in `build_graph`
is unreachable for extraction failures.  Conversely the
navigation-failure return path carries no `retries` update at all, so a
persistently unnavigable identifier loops through the scrape node without
bound (here 58 executions in 60 steps with the counter still 0) instead
of stopping after one retry.  In both runs no analysis node executes for
the failing identifier, and in the first the item is persisted with
`success = false`. -/
theorem retry_counter_preincrement_defeats_retry :
    (bsteps envCoreFail 10 (initMachine ["B0CORE"])).node = BNode.terminal
    ∧ (bsteps envCoreFail 10 (initMachine ["B0CORE"])).scrapeCount = 1
    ∧ (bsteps envCoreFail 10 (initMachine ["B0CORE"])).sentimentLog = []
    ∧ (bsteps envCoreFail 10 (initMachine ["B0CORE"])).themeLog = []
    ∧ (bsteps envCoreFail 10 (initMachine ["B0CORE"])).st.results.map ResultEntry.success
        = [false]
    ∧ (bsteps envNavFail 60 (initMachine ["B0NAV"])).scrapeCount = 58
    ∧ (bsteps envNavFail 60 (initMachine ["B0NAV"])).node = BNode.scrape
    ∧ (bsteps envNavFail 60 (initMachine ["B0NAV"])).st.retries = 0 :=
  ⟨rfl, rfl, rfl, rfl, rfl, rfl, rfl, rfl⟩

/-- C5 counterexample: with one identifier whose navigation always fails
blocked, the block-triggered re-login is performed ten times for that
identifier within 12 graph steps — not exactly once per identifier as
claimed.  (Each scrape-node execution re-detects the block and re-runs
the login, and the navigation-failure path never advances the retry
counter, so the scrape node keeps re-running.) -/
theorem block_relogin_not_once_per_identifier :
    (bsteps envBlockedFail 12 (initMachine ["B0BLOCK"])).loginLog.count "B0BLOCK" = 10
    ∧ ¬ ((bsteps envBlockedFail 12 (initMachine ["B0BLOCK"])).loginLog.count "B0BLOCK" ≤ 1) :=
  ⟨rfl, by decide⟩

/-- C5 amended: when navigation fails entirely and a block is detected,
`scrape_product` forces exactly one fresh login attempt on the same
session and exactly one further navigation with the reduced budget of 2
attempts (after the initial budget-3 navigation); this happens once per
execution of the scrape node — and therefore recurs for the same
identifier whenever its scrape node runs again — while no other scrape
outcome triggers a block re-login. -/
theorem block_relogin_once_per_scrape_execution :
    (∀ (st : BatchSt) (a : String) (lo : Bool),
        (applyScrape st a (.navFailBlockedRetryFail lo)).2.2 = [a]
        ∧ (applyScrape st a (.navFailBlockedRetryFail lo)).2.1 = [(a, 3), (a, 2)])
    ∧ (∀ (st : BatchSt) (a : String) (lo : Bool) (ext : Extraction),
        (applyScrape st a (.navFailBlockedRetryOk lo ext)).2.2 = [a]
        ∧ (applyScrape st a (.navFailBlockedRetryOk lo ext)).2.1 = [(a, 3), (a, 2)])
    ∧ (∀ (st : BatchSt) (a : String) (ext : Extraction),
        (applyScrape st a (.navOk ext)).2.2 = []
        ∧ (applyScrape st a (.navOk ext)).2.1 = [(a, 3)])
    ∧ (∀ (st : BatchSt) (a : String),
        (applyScrape st a .navFailNoBlock).2.2 = []
        ∧ (applyScrape st a .navFailNoBlock).2.1 = [(a, 3)])
    ∧ (∀ (st : BatchSt) (a : String) (msg : String),
        (applyScrape st a (.raiseExn msg)).2.2 = []) :=
  ⟨fun _ _ _ => ⟨rfl, rfl⟩, fun _ _ _ _ => ⟨rfl, rfl⟩, fun _ _ _ => ⟨rfl, rfl⟩,
   fun _ _ => ⟨rfl, rfl⟩, fun _ _ _ => rfl⟩

/-- Every `scrape_product` outcome leaves the identifier queue, the
cursor, the accumulated results and the current identifier untouched. -/
theorem applyScrape_preserves (st : BatchSt) (a : String) (b : ScrapeBehavior) :
    (applyScrape st a b).1.results = st.results
    ∧ (applyScrape st a b).1.i = st.i
    ∧ (applyScrape st a b).1.asins = st.asins
    ∧ (applyScrape st a b).1.current_asin = st.current_asin := by
  cases b <;> exact ⟨rfl, rfl, rfl, rfl⟩

/-- `scrapeStep` unfolding lemmas. -/
theorem scrapeStep_st (env : BatchEnv) (m : Machine) (a : String) :
    (scrapeStep env m a).st = (applyScrape m.st a (env.behavior m.scrapeCount)).1 := rfl

/-- The node after a scrape execution is whatever `scrape_router` picks. -/
theorem scrapeStep_node (env : BatchEnv) (m : Machine) (a : String) :
    (scrapeStep env m a).node
      = scrapeRouter (applyScrape m.st a (env.behavior m.scrapeCount)).1 := rfl

/-- `scrape_router` only ever routes to the scrape node, the
sentiment-analysis node, or result persistence. -/
theorem scrapeRouter_cases (st : BatchSt) :
    scrapeRouter st = BNode.scrape
    ∨ scrapeRouter st = BNode.sentiment
    ∨ scrapeRouter st = BNode.persistResult := by
  unfold scrapeRouter
  split
  · split
    · exact Or.inl rfl
    · exact Or.inr (Or.inr rfl)
  · exact Or.inr (Or.inl rfl)

/-- The run invariant: the accumulated summary entries are exactly the
already-passed identifiers in input order; while an item is in flight the
current identifier is `asins[i]` with the cursor in range, and past the
scrape node it is known non-empty (the scrape node's assertion crashed
the run otherwise). -/
def inv (m : Machine) : Prop :=
  match m.node with
  | .openSession | .pickNext =>
      m.st.results.map ResultEntry.asin = m.st.asins.take m.st.i
  | .scrape =>
      m.st.results.map ResultEntry.asin = m.st.asins.take m.st.i
      ∧ m.st.i < m.st.asins.length
      ∧ m.st.current_asin = m.st.asins[m.st.i]?
  | .sentiment | .theme | .buildReport | .persistResult =>
      m.st.results.map ResultEntry.asin = m.st.asins.take m.st.i
      ∧ m.st.i < m.st.asins.length
      ∧ m.st.current_asin = m.st.asins[m.st.i]?
      ∧ m.st.current_asin ≠ some ""
  | .advance =>
      m.st.results.map ResultEntry.asin = m.st.asins.take (m.st.i + 1)
  | .finalizeN =>
      m.st.results.map ResultEntry.asin = m.st.asins
  | .terminal =>
      m.st.results.map ResultEntry.asin = m.st.asins
      ∧ m.summary = some (m.st.results.length, m.st.results)
  | .crashed => True

/-- Closing the in-flight invariant for any node `scrape_router` can
pick. -/
theorem inv_of_components (m : Machine)
    (hnode : m.node = BNode.scrape ∨ m.node = BNode.sentiment ∨ m.node = BNode.persistResult)
    (H1 : m.st.results.map ResultEntry.asin = m.st.asins.take m.st.i)
    (H2 : m.st.i < m.st.asins.length)
    (H3 : m.st.current_asin = m.st.asins[m.st.i]?)
    (H4 : m.st.current_asin ≠ some "") : inv m := by
  unfold inv
  rcases hnode with h | h | h <;> rw [h]
  · exact ⟨H1, H2, H3⟩
  · exact ⟨H1, H2, H3, H4⟩
  · exact ⟨H1, H2, H3, H4⟩

/-- The invariant is preserved by every graph step. -/
theorem inv_step (env : BatchEnv) (m : Machine) (h : inv m) : inv (step env m) := by
  obtain ⟨node, st, sc, pc, gl, ll, sl, tl, su⟩ := m
  cases node
  case openSession => exact h
  case pickNext =>
    by_cases hi : st.i < st.asins.length
    · simp only [step]
      rw [dif_pos hi]
      exact ⟨h, hi, (List.getElem?_eq_getElem hi).symm⟩
    · simp only [step]
      rw [dif_neg hi]
      exact h.trans (List.take_of_length_le (Nat.le_of_not_lt hi))
  case scrape =>
    obtain ⟨hmap, hi, hca⟩ := h
    cases hcur : st.current_asin with
    | none =>
        simp only [step, hcur]
        trivial
    | some a =>
        by_cases ha : a = ""
        · simp only [step, hcur, if_pos ha]
          trivial
        · simp only [step, hcur, if_neg ha]
          obtain ⟨hr1, hr2, hr3, hr4⟩ :=
            applyScrape_preserves st a (env.behavior sc)
          apply inv_of_components
          · rw [scrapeStep_node]
            exact scrapeRouter_cases _
          · rw [scrapeStep_st, hr1, hr2, hr3]
            exact hmap
          · rw [scrapeStep_st, hr2, hr3]
            exact hi
          · rw [scrapeStep_st, hr4, hr2, hr3]
            exact hca
          · rw [scrapeStep_st, hr4, hcur]
            exact fun hx => ha (by injection hx)
  case sentiment => exact h
  case theme => exact h
  case buildReport => exact h
  case persistResult =>
    obtain ⟨hmap, hi, hca, hne⟩ := h
    have hsome : st.asins[st.i]? = some (st.asins.get ⟨st.i, hi⟩) :=
      List.getElem?_eq_getElem hi
    have hcur : st.current_asin = some (st.asins.get ⟨st.i, hi⟩) := hca.trans hsome
    have ha : st.asins.get ⟨st.i, hi⟩ ≠ "" := fun e => hne (by rw [hcur, e])
    have hpa : persistAsin st = some (st.asins.get ⟨st.i, hi⟩) := by
      simp only [persistAsin, hcur]
      rw [if_neg ha]
    simp only [step]
    rw [hpa]
    show (st.results ++ [mkEntry _ st _]).map ResultEntry.asin = st.asins.take (st.i + 1)
    rw [List.map_append, hmap, List.take_succ, hsome]
    rfl
  case advance => exact h
  case finalizeN => exact ⟨h, rfl⟩
  case terminal => exact h
  case crashed => trivial

/-- The invariant is preserved by any number of graph steps. -/
theorem inv_bsteps (env : BatchEnv) (n : Nat) (m : Machine) (h : inv m) :
    inv (bsteps env n m) := by
  induction n generalizing m with
  | zero => exact h
  | succ k ih =>
      unfold bsteps
      split
      · exact h
      · exact ih _ (inv_step env m h)

/-- The initial machine satisfies the invariant. -/
theorem inv_initMachine (asins : List String) : inv (initMachine asins) := rfl

/-- No graph step changes the identifier list of the job. -/
theorem step_asins (env : BatchEnv) (m : Machine) :
    (step env m).st.asins = m.st.asins := by
  obtain ⟨node, st, sc, pc, gl, ll, sl, tl, su⟩ := m
  cases node
  case openSession => rfl
  case pickNext =>
    simp only [step]
    split <;> rfl
  case scrape =>
    cases hcur : st.current_asin with
    | none => simp [step, hcur]
    | some a =>
        by_cases ha : a = ""
        · simp [step, hcur, ha]
        · simp only [step, hcur, if_neg ha, scrapeStep_st]
          exact (applyScrape_preserves st a _).2.2.1
  case sentiment => rfl
  case theme => rfl
  case buildReport => rfl
  case persistResult =>
    simp only [step]
    cases persistAsin st <;> rfl
  case advance => rfl
  case finalizeN => rfl
  case terminal => rfl
  case crashed => rfl

/-- The identifier list is constant across a whole run. -/
theorem bsteps_asins (env : BatchEnv) (n : Nat) (m : Machine) :
    (bsteps env n m).st.asins = m.st.asins := by
  induction n generalizing m with
  | zero => rfl
  | succ k ih =>
      unfold bsteps
      split
      · rfl
      · rw [ih, step_asins]

/-- C3: a batch run over a non-empty identifier list that reaches the
END node has persisted exactly one summary entry per input identifier —
the entries' identifiers are the input list itself, in input order,
failed items included — and the batch summary written by `finalize`
records exactly that list with `count` equal to its length. -/
theorem batch_summary_one_entry_per_identifier
    (env : BatchEnv) (asins : List String) (fuel : Nat)
    (_hne : asins ≠ [])
    (hterm : (bsteps env fuel (initMachine asins)).node = BNode.terminal) :
    (bsteps env fuel (initMachine asins)).st.results.map ResultEntry.asin = asins
    ∧ (bsteps env fuel (initMachine asins)).st.results.length = asins.length
    ∧ (bsteps env fuel (initMachine asins)).summary
        = some ((bsteps env fuel (initMachine asins)).st.results.length,
                (bsteps env fuel (initMachine asins)).st.results) := by
  have hinv := inv_bsteps env fuel (initMachine asins) (inv_initMachine asins)
  have hasins : (bsteps env fuel (initMachine asins)).st.asins = asins :=
    bsteps_asins env fuel (initMachine asins)
  unfold inv at hinv
  rw [hterm] at hinv
  obtain ⟨hmap, hsum⟩ := hinv
  rw [hasins] at hmap
  refine ⟨hmap, ?_, hsum⟩
  calc (bsteps env fuel (initMachine asins)).st.results.length
      = ((bsteps env fuel (initMachine asins)).st.results.map ResultEntry.asin).length :=
        (List.length_map _ _).symm
    _ = asins.length := by rw [hmap]

/-- A fully successful extraction used by run witnesses. -/
def okExtraction : Extraction :=
  { info := { title := "Widget", rating_average := mkRat 9 2, total_reviews := 120, price := some "19,99" }
    reviews := [{ text := "This widget works very well indeed", rating := 5 }] }

/-- Environment in which every scrape succeeds at once and every write
lands. -/
def envHappy : BatchEnv :=
  { auth_ok := true
    behavior := fun _ => .navOk okExtraction
    sentimentResult := fun _ => .jobj [("sentiment_generale", .jstr "positivo")]
    themeResult := fun _ => .jobj [("punti_forza", .jarr [.jstr "quality"])]
    persistOk := fun _ => true }

/-- C3 witness: a concrete one-identifier run reaches END and its summary
holds exactly that identifier. -/
theorem batch_summary_one_entry_per_identifier_witness :
    (bsteps envHappy 12 (initMachine ["B0WIT"])).st.results.map ResultEntry.asin = ["B0WIT"] :=
  (batch_summary_one_entry_per_identifier envHappy ["B0WIT"] 12 (by decide) (by decide)).1

/-- The two candidate URL templates of `_goto_product_with_retries`
(lines 179-182). -/
def productUrls (asin : String) : List String :=
  ["https://www.amazon.it/dp/" ++ asin, "https://www.amazon.it/gp/product/" ++ asin]

/-- Multiplication of the backoff delay by 1.8 (`backoff *= 1.8`,
line 196), computed on exact rationals. -/
def mulBackoff (q : ℚ) : ℚ := mkRat (q.num * 9) (q.den * 5)

/-- `mulBackoff` is multiplication by 9/5, the exact value of 1.8. -/
theorem mulBackoff_eq_mul (q : ℚ) : mulBackoff q = q * mkRat 9 5 := by
  unfold mulBackoff
  rw [Rat.mkRat_eq_div, Rat.mkRat_eq_div]
  push_cast
  conv_rhs => rw [← Rat.num_div_den q]
  rw [div_mul_div_comm]

/-- The inner URL loop of `_goto_product_with_retries` (lines 185-194):
try each candidate in order, returning success at the first URL for which
navigation reaches the loaded signal (`nav attempt url` stands for
`page.goto` followed by the `#productTitle, #dp-container` wait
succeeding on that attempt). -/
def tryUrls (nav : Nat → String → Bool) (attempt : Nat) : List String → Bool
  | [] => false
  | u :: rest => if nav attempt u then true else tryUrls nav attempt rest

/-- The attempt loop of `_goto_product_with_retries`, with the remaining
attempt count, the 1-based attempt number and the current backoff as
arguments; returns whether navigation succeeded together with the list of
`sleep` durations performed, in order.  Mirroring the source, the sleep
runs after every failed attempt — including the last — because it sits
inside the attempt loop with no early exit other than `return True`. -/
def gotoAux (nav : Nat → String → Bool) (asin : String) :
    Nat → Nat → ℚ → Bool × List ℚ
  | 0, _, _ => (false, [])
  | n + 1, attempt, backoff =>
      if tryUrls nav attempt (productUrls asin) then (true, [])
      else
        let rest := gotoAux nav asin n (attempt + 1) (mulBackoff backoff)
        (rest.1, backoff :: rest.2)

/-- `_goto_product_with_retries(scraper, asin, max_attempts)` (lines
177-197): attempts start at 1, the backoff at 2.0 time-units. -/
def gotoProductWithRetries (nav : Nat → String → Bool) (asin : String)
    (maxAttempts : Nat) : Bool × List ℚ :=
  gotoAux nav asin maxAttempts 1 2

/-- The geometric backoff sequence starting at `b`: `b, b*1.8, ...`. -/
def backoffFrom (b : ℚ) : Nat → List ℚ
  | 0 => []
  | n + 1 => b :: backoffFrom (mulBackoff b) n

/-- Full behavior of the attempt loop: on failure the sleeps are one per
attempt; the sleeps always form an initial segment of the backoff
sequence; on success strictly fewer sleeps than attempts happened (none
after the succeeding attempt); and success holds exactly when some
attempt within the budget has a candidate URL reach the loaded signal. -/
theorem gotoAux_spec (nav : Nat → String → Bool) (asin : String) :
    ∀ (n attempt : Nat) (b : ℚ),
      ((gotoAux nav asin n attempt b).1 = false →
          (gotoAux nav asin n attempt b).2 = backoffFrom b n)
      ∧ (gotoAux nav asin n attempt b).2
          = backoffFrom b (gotoAux nav asin n attempt b).2.length
      ∧ ((gotoAux nav asin n attempt b).1 = true →
          (gotoAux nav asin n attempt b).2.length < n)
      ∧ ((gotoAux nav asin n attempt b).1 = true ↔
          ∃ a, a < n ∧ tryUrls nav (attempt + a) (productUrls asin) = true) := by
  intro n
  induction n with
  | zero =>
      intro attempt b
      refine ⟨fun _ => rfl, rfl, ?_, ?_⟩
      · intro h
        exact Bool.noConfusion h
      · constructor
        · intro h
          exact Bool.noConfusion h
        · rintro ⟨a, ha, -⟩
          exact absurd ha (Nat.not_lt_zero a)
  | succ k ih =>
      intro attempt b
      cases htry : tryUrls nav attempt (productUrls asin) with
      | true =>
          have hred : gotoAux nav asin (k + 1) attempt b = (true, []) := by
            simp [gotoAux, htry]
          rw [hred]
          refine ⟨?_, rfl, fun _ => Nat.succ_pos k, ?_⟩
          · intro h
            exact Bool.noConfusion h
          · constructor
            · intro _
              exact ⟨0, Nat.succ_pos k, by rw [Nat.add_zero]; exact htry⟩
            · intro _
              rfl
      | false =>
          have hred : gotoAux nav asin (k + 1) attempt b
              = ((gotoAux nav asin k (attempt + 1) (mulBackoff b)).1,
                 b :: (gotoAux nav asin k (attempt + 1) (mulBackoff b)).2) := by
            simp [gotoAux, htry]
          obtain ⟨ih1, ih2, ih3, ih4⟩ := ih (attempt + 1) (mulBackoff b)
          rw [hred]
          refine ⟨?_, ?_, ?_, ?_⟩
          · intro h
            exact congrArg (List.cons b) (ih1 h)
          · exact congrArg (List.cons b) ih2
          · intro h
            exact Nat.succ_lt_succ (ih3 h)
          · constructor
            · intro h
              obtain ⟨a, ha, htr⟩ := ih4.mp h
              refine ⟨a + 1, Nat.succ_lt_succ ha, ?_⟩
              rw [show attempt + (a + 1) = attempt + 1 + a by omega]
              exact htr
            · rintro ⟨a, ha, htr⟩
              cases a with
              | zero =>
                  rw [Nat.add_zero, htry] at htr
                  exact nomatch htr
              | succ a' =>
                  apply ih4.mpr
                  refine ⟨a', Nat.lt_of_succ_lt_succ ha, ?_⟩
                  rw [show attempt + 1 + a' = attempt + (a' + 1) by omega]
                  exact htr

/-- C6 counterexample: with 3 attempts all failing, the loop performs 3
sleeps (2.0, 3.6, 6.48) — one after each failed attempt, including the
final one — not the 2 sleeps the claim's between-attempts-only rule
predicts; it then returns failure. -/
theorem goto_sleep_after_final_failed_attempt :
    (gotoProductWithRetries (fun _ _ => false) "B0TEST" 3).1 = false
    ∧ (gotoProductWithRetries (fun _ _ => false) "B0TEST" 3).2
        = [2, mkRat 18 5, mkRat 162 25]
    ∧ (gotoProductWithRetries (fun _ _ => false) "B0TEST" 3).2.length = 3
    ∧ ¬ (gotoProductWithRetries (fun _ _ => false) "B0TEST" 3).2.length = 3 - 1 :=
  ⟨rfl, by decide, rfl, by decide⟩

/-- C6 amended: navigate-with-retry returns success as soon as any
candidate URL of any attempt within the budget reaches the loaded
signal, sleeping only between attempt rounds (never between candidate
URLs) but also once after the final failed attempt, so that a run that
fails all `n` attempts performs exactly `n` sleeps and a successful run
performs strictly fewer; the sleep durations follow the sequence
starting at 2.0 with successor `backoff * 1.8`; exhausting all attempts
returns failure. -/
theorem goto_retry_backoff_behavior (nav : Nat → String → Bool) (asin : String) (n : Nat) :
    ((gotoProductWithRetries nav asin n).1 = false →
        (gotoProductWithRetries nav asin n).2 = backoffFrom 2 n)
    ∧ (gotoProductWithRetries nav asin n).2
        = backoffFrom 2 (gotoProductWithRetries nav asin n).2.length
    ∧ ((gotoProductWithRetries nav asin n).1 = true →
        (gotoProductWithRetries nav asin n).2.length < n)
    ∧ ((gotoProductWithRetries nav asin n).1 = true ↔
        ∃ a, a < n ∧ tryUrls nav (1 + a) (productUrls asin) = true)
    ∧ (∀ (attempt : Nat) (u : String) (rest : List String),
        nav attempt u = true → tryUrls nav attempt (u :: rest) = true)
    ∧ (∀ q : ℚ, mulBackoff q = q * mkRat 9 5) := by
  obtain ⟨h1, h2, h3, h4⟩ := gotoAux_spec nav asin n 1 2
  exact ⟨h1, h2, h3, h4, fun attempt u rest h => by simp [tryUrls, h], mulBackoff_eq_mul⟩

/-- C6 amended witness: a concrete all-failing two-attempt run returns
failure with the two-element backoff list, and a first-URL success
short-circuits. -/
theorem goto_retry_backoff_behavior_witness :
    (gotoProductWithRetries (fun _ _ => false) "B0W6" 2).2 = backoffFrom 2 2
    ∧ (gotoProductWithRetries (fun _ _ => true) "B0W6" 2).2.length < 2 :=
  ⟨(goto_retry_backoff_behavior (fun _ _ => false) "B0W6" 2).1 (by decide),
   (goto_retry_backoff_behavior (fun _ _ => true) "B0W6" 2).2.2.1 (by decide)⟩

/-- The opening curly bracket character (code point 123). -/
def lbrace : Char := Char.ofNat 123

/-- The closing curly bracket character (code point 125). -/
def rbrace : Char := Char.ofNat 125

/-- The regex step of both analysis nodes:
`re.search(r'\x7b.*\x7d', result, re.DOTALL)` — the greedy match runs
from the first opening brace to the last closing brace of the text (the
match exists exactly when some closing brace follows the first opening
brace), and `.group(0)` yields that whole span. -/
def jsonExtract (s : String) : Option String :=
  let cs := s.toList
  match cs.findIdx? (· = lbrace), cs.reverse.findIdx? (· = rbrace) with
  | some i, some rj =>
      let j := cs.length - 1 - rj
      if i < j then some (String.mk ((cs.drop i).take (j - i + 1))) else none
  | _, _ => none

/-- JSON insignificant whitespace, as accepted by `json.loads`. -/
def skipWs : List Char → List Char
  | [] => []
  | c :: cs => if c = ' ' ∨ c = '\t' ∨ c = '\n' ∨ c = '\r' then skipWs cs else c :: cs

/-- Numeric value of a digit sequence. -/
def natOfDigits (cs : List Char) : Nat :=
  cs.foldl (fun n c => n * 10 + (c.toNat - 48)) 0

/-- Value of a hexadecimal digit, if any. -/
def hexVal (c : Char) : Option Nat :=
  if c.isDigit then some (c.toNat - 48)
  else if 'a' ≤ c ∧ c ≤ 'f' then some (c.toNat - 87)
  else if 'A' ≤ c ∧ c ≤ 'F' then some (c.toNat - 70)
  else none

/-- Parse a JSON number (strict grammar: optional minus, no leading
zeros, optional fraction and exponent), returning its exact value and
the rest of the input. -/
def parseNumber (cs : List Char) : Option (JVal × List Char) :=
  let (neg, cs1) := match cs with
    | '-' :: r => (true, r)
    | _ => (false, cs)
  match cs1 with
  | c :: _ =>
      if c.isDigit then
        let (ip, cs2) := cs1.span (·.isDigit)
        if 1 < ip.length ∧ ip.headD '0' = '0' then none
        else
          let fracStep : Option (List Char × List Char) := match cs2 with
            | '.' :: r =>
                let (fp, cs3) := r.span (·.isDigit)
                if fp = [] then none else some (fp, cs3)
            | _ => some ([], cs2)
          match fracStep with
          | none => none
          | some (fp, cs3) =>
              let expStep : Option (Bool × List Char × List Char) := match cs3 with
                | e :: r =>
                    if e = 'e' ∨ e = 'E' then
                      let (esign, r2) := match r with
                        | '+' :: r2 => (false, r2)
                        | '-' :: r2 => (true, r2)
                        | _ => (false, r)
                      let (ep, cs4) := r2.span (·.isDigit)
                      if ep = [] then none else some (esign, ep, cs4)
                    else some (false, [], cs3)
                | [] => some (false, [], cs3)
              match expStep with
              | none => none
              | some (esign, ep, cs4) =>
                  let mantNat : Nat := natOfDigits ip * 10 ^ fp.length + natOfDigits fp
                  let mant : Int := if neg then -(mantNat : Int) else (mantNat : Int)
                  let e : Nat := natOfDigits ep
                  let q : ℚ :=
                    if esign then mkRat mant (10 ^ fp.length * 10 ^ e)
                    else mkRat (mant * (10 ^ e : Nat)) (10 ^ fp.length)
                  some (.jnum q, cs4)
      else none
  | [] => none

mutual

/-- Parse one JSON value (after optional whitespace); the fuel only
bounds recursion depth and is chosen generously by the caller. -/
def parseJVal : Nat → List Char → Option (JVal × List Char)
  | 0, _ => none
  | fuel + 1, cs =>
      match skipWs cs with
      | [] => none
      | 'n' :: 'u' :: 'l' :: 'l' :: rest => some (.jnull, rest)
      | 't' :: 'r' :: 'u' :: 'e' :: rest => some (.jbool true, rest)
      | 'f' :: 'a' :: 'l' :: 's' :: 'e' :: rest => some (.jbool false, rest)
      | '"' :: rest =>
          match parseStrBody fuel rest [] with
          | some (s, r) => some (.jstr s, r)
          | none => none
      | c :: rest =>
          if c = lbrace then
            match skipWs rest with
            | c2 :: rest2 =>
                if c2 = rbrace then some (.jobj [], rest2)
                else
                  match parseMembers fuel (c2 :: rest2) with
                  | some (fields, r) => some (.jobj fields, r)
                  | none => none
            | [] => none
          else if c = '[' then
            match skipWs rest with
            | ']' :: rest2 => some (.jarr [], rest2)
            | rest2 =>
                match parseElements fuel rest2 with
                | some (elts, r) => some (.jarr elts, r)
                | none => none
          else parseNumber (c :: rest)

/-- Parse the body of a JSON string after the opening quote, handling
escapes; `acc` holds the characters read so far, reversed. -/
def parseStrBody : Nat → List Char → List Char → Option (String × List Char)
  | 0, _, _ => none
  | fuel + 1, cs, acc =>
      match cs with
      | [] => none
      | '"' :: rest => some (String.mk acc.reverse, rest)
      | '\\' :: e :: rest =>
          if e = '"' ∨ e = '\\' ∨ e = '/' then parseStrBody fuel rest (e :: acc)
          else if e = 'b' then parseStrBody fuel rest (Char.ofNat 8 :: acc)
          else if e = 'f' then parseStrBody fuel rest (Char.ofNat 12 :: acc)
          else if e = 'n' then parseStrBody fuel rest ('\n' :: acc)
          else if e = 'r' then parseStrBody fuel rest ('\r' :: acc)
          else if e = 't' then parseStrBody fuel rest ('\t' :: acc)
          else if e = 'u' then
            match rest with
            | h1 :: h2 :: h3 :: h4 :: rest2 =>
                match hexVal h1, hexVal h2, hexVal h3, hexVal h4 with
                | some v1, some v2, some v3, some v4 =>
                    parseStrBody fuel rest2
                      (Char.ofNat (((v1 * 16 + v2) * 16 + v3) * 16 + v4) :: acc)
                | _, _, _, _ => none
            | _ => none
          else none
      | c :: rest =>
          if c.toNat < 32 then none else parseStrBody fuel rest (c :: acc)

/-- Parse the members of a JSON object, positioned at a key. -/
def parseMembers : Nat → List Char → Option (List (String × JVal) × List Char)
  | 0, _ => none
  | fuel + 1, cs =>
      match skipWs cs with
      | '"' :: rest =>
          match parseStrBody fuel rest [] with
          | some (k, r1) =>
              match skipWs r1 with
              | ':' :: r2 =>
                  match parseJVal fuel r2 with
                  | some (v, r3) =>
                      match skipWs r3 with
                      | ',' :: r4 =>
                          match parseMembers fuel r4 with
                          | some (fields, r5) => some ((k, v) :: fields, r5)
                          | none => none
                      | c :: r4 =>
                          if c = rbrace then some ([(k, v)], r4) else none
                      | [] => none
                  | none => none
              | _ => none
          | none => none
      | _ => none

/-- Parse the elements of a JSON array, positioned at a value. -/
def parseElements : Nat → List Char → Option (List JVal × List Char)
  | 0, _ => none
  | fuel + 1, cs =>
      match parseJVal fuel cs with
      | some (v, r1) =>
          match skipWs r1 with
          | ',' :: r2 =>
              match parseElements fuel r2 with
              | some (elts, r3) => some (v :: elts, r3)
              | none => none
          | ']' :: r2 => some ([v], r2)
          | _ => none
      | none => none

end

/-- `json.loads` on a candidate string: parse one value and require only
whitespace to remain (Python raises `Extra data` otherwise, which the
callers catch).  The fuel bounds only the recursion depth and
`4 * length + 16` exceeds any depth reachable on the input. -/
def jsonParse (s : String) : Option JVal :=
  match parseJVal (4 * s.length + 16) s.toList with
  | some (v, rest) => if skipWs rest = [] then some v else none
  | none => none

/-- The extract-then-parse step shared by both analysis nodes: `none`
exactly when the regex finds no match or `json.loads` fails on the
matched span. -/
def jsonParseOpt (txt : String) : Option JVal :=
  match jsonExtract txt with
  | some s => jsonParse s
  | none => none

/-- What the `await`ed collaborator call inside `asyncio.wait_for`
produced: free-form text, an `asyncio.TimeoutError`, or any other raised
exception. -/
inductive LLMOutcome where
  | ok (text : String)
  | timeout
  | raised (msg : String)

/-- The value a hybrid analysis node returns: the dictionary stored into
the state's analysis channel, together with `analysis_errors`.  The
duration fields (wall-clock times) are omitted. -/
structure AnalysisRet where
  payload : JVal
  analysis_errors : List String

/-- Field lookup in a JSON object payload (like Python `dict.get`). -/
def lookupFields : List (String × JVal) → String → Option JVal
  | [], _ => none
  | (k', v) :: rest, k => if k' = k then some v else lookupFields rest k

/-- Lookup on a `JVal`; `none` on non-objects and missing keys. -/
def jlookup (v : JVal) (k : String) : Option JVal :=
  match v with
  | .jobj fields => lookupFields fields k
  | _ => none

/-- Rendering of the review rating inside the sentiment prompt line
(`f"[{r.get('rating', 0)}★] ..."`).  The exact float rendering is
immaterial: the text only feeds the collaborator prompt, which is a
parameter of the embedding. -/
def ratingStr (q : ℚ) : String :=
  if q.den = 1 then toString q.num else toString q.num ++ "/" ++ toString q.den

/-- One prompt line of `sentiment_analysis_node`. -/
def fmtReview (r : Review) : String :=
  "[" ++ ratingStr r.rating ++ "★] " ++ r.text.take 200

/-- The review texts `sentiment_analysis_node` sends to the collaborator
(line 411-414): the first 8 reviews, keeping those with non-empty text
longer than 20 characters. -/
def sentimentTexts (reviews : List Review) : List String :=
  (reviews.take 8).filterMap fun r =>
    if r.text ≠ "" ∧ 20 < r.text.length then some (fmtReview r) else none

/-- The review texts `theme_analysis_node` sends to the collaborator
(line 517): the first 10 reviews with non-empty text, truncated to 150
characters. -/
def themeTexts (reviews : List Review) : List String :=
  (reviews.take 10).filterMap fun r =>
    if r.text ≠ "" then some (r.text.take 150) else none

/-- Sentiment result when no review has text (lines 399-407). -/
def sentimentNoReviews : AnalysisRet :=
  { payload := .jobj [("error", .jstr "No reviews available"),
                      ("sentiment_generale", .jstr "neutral"),
                      ("confidence", .jnum 0)]
    analysis_errors := ["No reviews for sentiment analysis"] }

/-- Sentiment result when no review passes the length filter
(lines 416-422). -/
def sentimentNoValid : AnalysisRet :=
  { payload := .jobj [("error", .jstr "No valid reviews"),
                      ("sentiment_generale", .jstr "neutral")]
    analysis_errors := ["No valid review text"] }

/-- Sentiment result on `asyncio.TimeoutError` (lines 483-490). -/
def sentimentTimeoutRet : AnalysisRet :=
  { payload := .jobj [("error", .jstr "LLM timeout"),
                      ("sentiment_generale", .jstr "neutro")]
    analysis_errors := ["LLM timeout"] }

/-- Sentiment result on any other exception (lines 491-498). -/
def sentimentErrorRet (msg : String) : AnalysisRet :=
  { payload := .jobj [("error", .jstr msg), ("sentiment_generale", .jstr "neutro")]
    analysis_errors := [msg] }

/-- Sentiment raw-text fallback when no JSON object parses from the
collaborator text (lines 470-481): flagged `parsing_failed = true`. -/
def sentimentFallback (txt : String) : AnalysisRet :=
  { payload := .jobj [("raw_response", .jstr txt),
                      ("sentiment_generale", .jstr "neutro"),
                      ("confidence", .jnum (mkRat 1 2)),
                      ("parsing_failed", .jbool true)]
    analysis_errors := ["JSON parsing failed"] }

/-- Theme result when there are no reviews at all (lines 508-513). -/
def themeNoReviews : AnalysisRet :=
  { payload := .jobj [("error", .jstr "No reviews for theme analysis")]
    analysis_errors := ["No reviews available"] }

/-- Theme result when no review has text (lines 519-524). -/
def themeNoValid : AnalysisRet :=
  { payload := .jobj [("error", .jstr "No valid review texts")]
    analysis_errors := ["No valid review texts"] }

/-- Theme result on `asyncio.TimeoutError` (lines 586-593). -/
def themeTimeoutRet : AnalysisRet :=
  { payload := .jobj [("error", .jstr "LLM timeout")]
    analysis_errors := ["LLM timeout"] }

/-- Theme result on any other exception (lines 594-601). -/
def themeErrorRet (msg : String) : AnalysisRet :=
  { payload := .jobj [("error", .jstr msg)]
    analysis_errors := [msg] }

/-- Theme raw-text fallback when no JSON object parses from the
collaborator text (lines 580-584): it carries only the raw text — no
`parsing_failed` key. -/
def themeFallback (txt : String) : AnalysisRet :=
  { payload := .jobj [("raw_response", .jstr txt)]
    analysis_errors := ["JSON parsing failed"] }

/-- Post-collaborator handling of `sentiment_analysis_node` (lines
452-481): extract the greedy brace span, `json.loads` it, and fall back
on failure. -/
def sentimentHandleLLM (txt : String) : AnalysisRet :=
  match jsonParseOpt txt with
  | some v => { payload := v, analysis_errors := [] }
  | none => sentimentFallback txt

/-- Post-collaborator handling of `theme_analysis_node` (lines 562-584). -/
def themeHandleLLM (txt : String) : AnalysisRet :=
  match jsonParseOpt txt with
  | some v => { payload := v, analysis_errors := [] }
  | none => themeFallback txt

/-- The timeout passed to `asyncio.wait_for` in `sentiment_analysis_node`
(line 449): 60.0 seconds. -/
def sentimentTimeoutSeconds : ℚ := 60

/-- The timeout passed to `asyncio.wait_for` in `theme_analysis_node`
(line 559): 60.0 seconds. -/
def themeTimeoutSeconds : ℚ := 60

/-- `sentiment_analysis_node` (lines 389-498) as a function of the
extracted reviews and the collaborator outcome; total by construction —
every Python exception path is one of the explicit branches. -/
def sentiment_analysis_node (reviews : List Review) (llm : LLMOutcome) : AnalysisRet :=
  if reviews.isEmpty || !(reviews.any fun r => r.text != "") then sentimentNoReviews
  else if sentimentTexts reviews = [] then sentimentNoValid
  else
    match llm with
    | .ok txt => sentimentHandleLLM txt
    | .timeout => sentimentTimeoutRet
    | .raised msg => sentimentErrorRet msg

/-- `theme_analysis_node` (lines 500-601) as a function of the extracted
reviews and the collaborator outcome. -/
def theme_analysis_node (reviews : List Review) (llm : LLMOutcome) : AnalysisRet :=
  if reviews.isEmpty then themeNoReviews
  else if themeTexts reviews = [] then themeNoValid
  else
    match llm with
    | .ok txt => themeHandleLLM txt
    | .timeout => themeTimeoutRet
    | .raised msg => themeErrorRet msg

/-- C4 counterexample, refuting the claim at two concrete inputs.
First, on collaborator text `"no json here"` (no JSON at all), the theme
analyzer's fallback result carries the raw text but has no
`parsing_failed` key at all — the claimed `parsing_failed = true` flag
is present only in the sentiment analyzer's fallback.  Second, on
collaborator text `x {"a":1} y {"b":2} z` the adapter does not extract
the first balanced-brace JSON substring `{"a":1}` (which parses fine, as
the last conjunct shows, so the claim predicts a parsed result): it
extracts the greedy span from the first opening brace to the last
closing brace, `{"a":1} y {"b":2}`, whose parse fails, and both
analyzers return the fallback. -/
theorem theme_flag_missing_and_greedy_extraction :
    jlookup (theme_analysis_node
        [{ text := "Great quality and totally worth it", rating := 4 }]
        (.ok "no json here")).payload "parsing_failed" = none
    ∧ (theme_analysis_node
        [{ text := "Great quality and totally worth it", rating := 4 }]
        (.ok "no json here")) = themeFallback "no json here"
    ∧ jlookup (sentiment_analysis_node
        [{ text := "Great quality and totally worth it", rating := 4 }]
        (.ok "no json here")).payload "parsing_failed" = some (.jbool true)
    ∧ jsonExtract "x \x7b\"a\":1\x7d y \x7b\"b\":2\x7d z"
        = some "\x7b\"a\":1\x7d y \x7b\"b\":2\x7d"
    ∧ jsonParseOpt "x \x7b\"a\":1\x7d y \x7b\"b\":2\x7d z" = none
    ∧ sentimentHandleLLM "x \x7b\"a\":1\x7d y \x7b\"b\":2\x7d z"
        = sentimentFallback "x \x7b\"a\":1\x7d y \x7b\"b\":2\x7d z"
    ∧ themeHandleLLM "x \x7b\"a\":1\x7d y \x7b\"b\":2\x7d z"
        = themeFallback "x \x7b\"a\":1\x7d y \x7b\"b\":2\x7d z"
    ∧ jsonParse "\x7b\"a\":1\x7d" = some (.jobj [("a", .jnum 1)]) :=
  ⟨rfl, rfl, rfl, rfl, rfl, rfl, rfl, rfl⟩

/-- C4 amended: both analysis adapters extract the greedy
first-open-brace-to-last-close-brace span of the collaborator text and
parse it; on parse failure (including text with no braces) each returns
a raw-text fallback carrying the original text, and neither raises (the
handlers are total functions); the sentiment fallback is flagged
`parsing_failed = true`, while the theme fallback carries only the raw
text without any `parsing_failed` key. -/
theorem analysis_lenient_json_fallback (txt : String) :
    (jsonParseOpt txt = none →
        sentimentHandleLLM txt = sentimentFallback txt
        ∧ themeHandleLLM txt = themeFallback txt)
    ∧ (∀ v, jsonParseOpt txt = some v →
        sentimentHandleLLM txt = { payload := v, analysis_errors := [] }
        ∧ themeHandleLLM txt = { payload := v, analysis_errors := [] })
    ∧ jlookup (sentimentFallback txt).payload "raw_response" = some (.jstr txt)
    ∧ jlookup (sentimentFallback txt).payload "parsing_failed" = some (.jbool true)
    ∧ jlookup (themeFallback txt).payload "raw_response" = some (.jstr txt)
    ∧ jlookup (themeFallback txt).payload "parsing_failed" = none := by
  refine ⟨?_, ?_, rfl, rfl, rfl, rfl⟩
  · intro h
    exact ⟨by simp [sentimentHandleLLM, h], by simp [themeHandleLLM, h]⟩
  · intro v h
    exact ⟨by simp [sentimentHandleLLM, h], by simp [themeHandleLLM, h]⟩

/-- C4 amended witness: the parse-failure branch at the concrete
collaborator text `"no json here"`. -/
theorem analysis_lenient_json_fallback_witness :
    sentimentHandleLLM "no json here" = sentimentFallback "no json here"
    ∧ themeHandleLLM "no json here" = themeFallback "no json here" :=
  (analysis_lenient_json_fallback "no json here").1 rfl

/-- C8: neither analysis node propagates an exception (both are total
functions into placeholder results); when no review carries text both
return their neutral/default placeholder without consulting the
collaborator outcome at all; when the collaborator call times out or
raises, each returns the corresponding error placeholder; and the
timeout both nodes pass to `asyncio.wait_for` is the fixed 60
time-units. -/
theorem analysis_nodes_fail_gracefully (reviews : List Review) (llm : LLMOutcome) (msg : String) :
    ((∀ r ∈ reviews, r.text = "") →
        sentiment_analysis_node reviews llm = sentimentNoReviews
        ∧ theme_analysis_node reviews llm
            = (if reviews.isEmpty then themeNoReviews else themeNoValid))
    ∧ (sentimentTexts reviews ≠ [] →
        sentiment_analysis_node reviews .timeout = sentimentTimeoutRet
        ∧ sentiment_analysis_node reviews (.raised msg) = sentimentErrorRet msg)
    ∧ (themeTexts reviews ≠ [] →
        theme_analysis_node reviews .timeout = themeTimeoutRet
        ∧ theme_analysis_node reviews (.raised msg) = themeErrorRet msg)
    ∧ sentimentTimeoutSeconds = 60
    ∧ themeTimeoutSeconds = 60 := by
  refine ⟨?_, ?_, ?_, rfl, rfl⟩
  · intro hall
    have hany : (reviews.any fun r => r.text != "") = false := by
      rw [List.any_eq_false]
      intro r hr
      simp [hall r hr]
    have htex : themeTexts reviews = [] := by
      rw [themeTexts, List.filterMap_eq_nil_iff]
      intro r hr
      rw [if_neg (fun hcond => hcond (hall r (List.take_subset 10 reviews hr)))]
    refine ⟨?_, ?_⟩
    · simp [sentiment_analysis_node, hany]
    · cases hie : reviews.isEmpty
      · simp [theme_analysis_node, hie, htex]
      · simp [theme_analysis_node, hie]
  · intro hne
    have hex : ∃ r ∈ reviews.take 8, r.text ≠ "" ∧ 20 < r.text.length := by
      by_contra hc
      apply hne
      rw [sentimentTexts, List.filterMap_eq_nil_iff]
      intro r hr
      rw [if_neg (fun hcond => hc ⟨r, hr, hcond⟩)]
    obtain ⟨r0, hr0, hrt, -⟩ := hex
    have hmem : r0 ∈ reviews := List.take_subset 8 reviews hr0
    have hany : (reviews.any fun r => r.text != "") = true := by
      rw [List.any_eq_true]
      exact ⟨r0, hmem, by simpa using hrt⟩
    have hno : reviews.isEmpty = false := by
      cases reviews with
      | nil => exact absurd hmem (List.not_mem_nil r0)
      | cons a l => rfl
    constructor <;> simp [sentiment_analysis_node, hno, hany, hne]
  · intro hne
    have hex : ∃ r ∈ reviews.take 10, r.text ≠ "" := by
      by_contra hc
      apply hne
      rw [themeTexts, List.filterMap_eq_nil_iff]
      intro r hr
      rw [if_neg (fun hcond => hc ⟨r, hr, hcond⟩)]
    obtain ⟨r0, hr0, -⟩ := hex
    have hmem : r0 ∈ reviews := List.take_subset 10 reviews hr0
    have hno : reviews.isEmpty = false := by
      cases reviews with
      | nil => exact absurd hmem (List.not_mem_nil r0)
      | cons a l => rfl
    constructor <;> simp [theme_analysis_node, hno, hne]

/-- C8 witness: concrete placeholder and timeout branches for both
nodes. -/
theorem analysis_nodes_fail_gracefully_witness :
    sentiment_analysis_node [{ text := "", rating := 5 }] (.ok "whatever") = sentimentNoReviews
    ∧ sentiment_analysis_node
        [{ text := "Great quality and totally worth it", rating := 4 }] .timeout
        = sentimentTimeoutRet
    ∧ theme_analysis_node
        [{ text := "Great quality and totally worth it", rating := 4 }] .timeout
        = themeTimeoutRet :=
  ⟨((analysis_nodes_fail_gracefully [{ text := "", rating := 5 }] (.ok "whatever") "m").1
      (by decide)).1,
   ((analysis_nodes_fail_gracefully
        [{ text := "Great quality and totally worth it", rating := 4 }] .timeout "m").2.1
      (by decide)).1,
   ((analysis_nodes_fail_gracefully
        [{ text := "Great quality and totally worth it", rating := 4 }] .timeout "m").2.2.1
      (by decide)).1⟩

/-- Ghost events of the session registry: scraper construction, browser
startup (`start_browser`) and login attempts (`perform_login`), keyed by
the scraper object identity. -/
inductive SessionEv where
  | construct (oid : Nat)
  | startBrowser (oid : Nat)
  | login (oid : Nat)
deriving DecidableEq, Repr

/-- The process-wide `SessionManager._sessions` registry plus ghost
observations: scraper objects are identified by allocation order. -/
structure Registry where
  sessions : List (String × Nat)
  nextId : Nat
  events : List SessionEv
deriving DecidableEq, Repr

/-- Association lookup (Python `dict` access by key). -/
def lookupSession : List (String × Nat) → String → Option Nat
  | [], _ => none
  | (k, v) :: rest, sid => if k = sid then some v else lookupSession rest sid

/-- `SessionManager.get` (lines 77-88): return the scraper already
registered for the id if present; otherwise construct a new scraper,
start its browser, register and return it.  No login happens here. -/
def sessionGet (rs : Registry) (sid : String) : Nat × Registry :=
  match lookupSession rs.sessions sid with
  | some oid => (oid, rs)
  | none =>
      let oid := rs.nextId
      (oid, { sessions := (sid, oid) :: rs.sessions
              nextId := rs.nextId + 1
              events := rs.events ++ [.construct oid, .startBrowser oid] })

/-- The `open_session_and_login` node (lines 144-160): acquire the
session via `SessionManager.get`, then attempt `perform_login` exactly
once; a login failure is recorded in `auth_ok`, never raised. -/
def openSessionAndLogin (rs : Registry) (sid : String) (loginOk : Bool) :
    (Nat × Bool) × Registry :=
  let r := sessionGet rs sid
  ((r.1, loginOk), { r.2 with events := r.2.events ++ [.login r.1] })

/-- C7: acquiring a session id that is not yet registered constructs and
initializes exactly one scraper (browser startup at construction, one
login attempt in the open-session node); a second acquire with the same
id returns the same scraper object and leaves the registry — events
included — completely unchanged, so across the two acquire calls exactly
one login was performed. -/
theorem session_acquire_idempotent (rs : Registry) (sid : String) (lo : Bool)
    (hfresh : lookupSession rs.sessions sid = none) :
    sessionGet (sessionGet rs sid).2 sid = ((sessionGet rs sid).1, (sessionGet rs sid).2)
    ∧ (openSessionAndLogin rs sid lo).2.events
        = rs.events ++ [.construct rs.nextId, .startBrowser rs.nextId, .login rs.nextId]
    ∧ sessionGet (openSessionAndLogin rs sid lo).2 sid
        = ((openSessionAndLogin rs sid lo).1.1, (openSessionAndLogin rs sid lo).2)
    ∧ (sessionGet (openSessionAndLogin rs sid lo).2 sid).2.events.count (.login rs.nextId)
        = rs.events.count (.login rs.nextId) + 1 := by
  refine ⟨?_, ?_, ?_, ?_⟩
  · simp [sessionGet, hfresh, lookupSession]
  · simp [openSessionAndLogin, sessionGet, hfresh]
  · simp [openSessionAndLogin, sessionGet, hfresh, lookupSession]
  · simp [openSessionAndLogin, sessionGet, hfresh, lookupSession, List.count_append]

/-- C7 witness: the double acquire on an empty registry. -/
theorem session_acquire_idempotent_witness :
    sessionGet (sessionGet ⟨[], 0, []⟩ "sess_w").2 "sess_w"
      = ((sessionGet ⟨[], 0, []⟩ "sess_w").1, (sessionGet ⟨[], 0, []⟩ "sess_w").2)
    ∧ (sessionGet (openSessionAndLogin ⟨[], 0, []⟩ "sess_w" true).2 "sess_w").2.events.count
        (.login 0) = ([] : List SessionEv).count (.login 0) + 1 :=
  ⟨(session_acquire_idempotent ⟨[], 0, []⟩ "sess_w" true rfl).1,
   (session_acquire_idempotent ⟨[], 0, []⟩ "sess_w" true rfl).2.2.2⟩

/-- One job of `api/jobs.py`: its id, status string, and the `step`
fields of the events queued to its subscriber stream, in order
(`"_stream_end"` is the end marker the SSE endpoint translates into the
stream-closing event). -/
structure Job9 where
  id : String
  status : String
  queue : List String
deriving DecidableEq, Repr

/-- The observable server state for cancellation: the `JobManager.jobs`
map, the open Playwright session ids (`SessionManager._sessions`), and
the per-item reports already written to durable storage. -/
structure ApiState where
  jobs : List (String × Job9)
  sessions : List String
  store : List ResultEntry
deriving DecidableEq, Repr

/-- Association lookup in the jobs map. -/
def lookupJob : List (String × Job9) → String → Option Job9
  | [], _ => none
  | (k, j) :: rest, jid => if k = jid then some j else lookupJob rest jid

/-- In-place update of one job in the map. -/
def updateJob : List (String × Job9) → String → Job9 → List (String × Job9)
  | [], _, _ => []
  | (k, j) :: rest, jid, j' =>
      if k = jid then (k, j') :: rest else (k, j) :: updateJob rest jid j'

/-- `JobManager.cancel` (api/jobs.py lines 65-84): unknown job → `False`;
already finished job → `True` with no effect; otherwise the running task
is cancelled, every open session is closed (`SessionManager.close_all`),
the status becomes `"cancelled"`, and the events `"cancelled"` then
`"_stream_end"` are enqueued.  Nothing in the function touches the
persisted per-item reports. -/
def cancelJob (st : ApiState) (jid : String) : Bool × ApiState :=
  match lookupJob st.jobs jid with
  | none => (false, st)
  | some job =>
      if job.status = "done" ∨ job.status = "error" ∨ job.status = "cancelled" then (true, st)
      else
        (true,
         { jobs := updateJob st.jobs jid
             { job with
                 status := "cancelled"
                 queue := job.queue ++ ["cancelled", "_stream_end"] }
           sessions := []
           store := st.store })

/-- Updating a present key makes lookup return the new value. -/
theorem lookupJob_updateJob (jobs : List (String × Job9)) (jid : String) (j j' : Job9)
    (h : lookupJob jobs jid = some j) :
    lookupJob (updateJob jobs jid j') jid = some j' := by
  induction jobs with
  | nil => exact absurd h (by simp [lookupJob])
  | cons p rest ih =>
      obtain ⟨k, jv⟩ := p
      by_cases hk : k = jid
      · simp [lookupJob, updateJob, hk]
      · simp only [lookupJob, updateJob, if_neg hk]
        exact ih (by simpa [lookupJob, if_neg hk] using h)

/-- C9: cancelling a job that exists and has not already finished
acknowledges the cancellation, closes every open session regardless of
the state the machine was in, appends the terminal `"cancelled"`
notification followed by the stream end marker to that job's event
queue, and leaves every persisted per-item report exactly as it was —
no rollback. -/
theorem cancel_closes_sessions_and_preserves_results (st : ApiState) (jid : String) (job : Job9)
    (hj : lookupJob st.jobs jid = some job)
    (hrun : ¬(job.status = "done" ∨ job.status = "error" ∨ job.status = "cancelled")) :
    (cancelJob st jid).1 = true
    ∧ (cancelJob st jid).2.sessions = []
    ∧ lookupJob (cancelJob st jid).2.jobs jid
        = some { job with
                   status := "cancelled"
                   queue := job.queue ++ ["cancelled", "_stream_end"] }
    ∧ (cancelJob st jid).2.store = st.store := by
  refine ⟨?_, ?_, ?_, ?_⟩ <;> simp [cancelJob, hj, hrun]
  exact lookupJob_updateJob st.jobs jid job _ hj

/-- C9 witness: cancelling a running job in a concrete server state. -/
theorem cancel_closes_sessions_and_preserves_results_witness :
    (cancelJob
        ⟨[("job_1", ⟨"job_1", "running", ["start_agent"]⟩)], ["sess_1"],
         [{ asin := "B0A", title := "Widget", rating_average := 5, total_reviews := 3,
            reviews_extracted := 2, path := some "output/batch_report_B0A.json",
            success := true, errors := [] }]⟩ "job_1").2.store
      = [{ asin := "B0A", title := "Widget", rating_average := 5, total_reviews := 3,
           reviews_extracted := 2, path := some "output/batch_report_B0A.json",
           success := true, errors := [] }] :=
  (cancel_closes_sessions_and_preserves_results
      ⟨[("job_1", ⟨"job_1", "running", ["start_agent"]⟩)], ["sess_1"],
       [{ asin := "B0A", title := "Widget", rating_average := 5, total_reviews := 3,
          reviews_extracted := 2, path := some "output/batch_report_B0A.json",
          success := true, errors := [] }]⟩ "job_1"
      ⟨"job_1", "running", ["start_agent"]⟩ rfl (by decide)).2.2.2

/-- ASCII whitespace stripped by Python `str.strip()`. -/
def isSpaceChar (c : Char) : Bool :=
  c = ' ' ∨ c = '\t' ∨ c = '\n' ∨ c = '\r' ∨ c = Char.ofNat 11 ∨ c = Char.ofNat 12

/-- Python `"...".split(",")` on the character list, accumulating the
current field reversed. -/
def splitCommaAux : List Char → List Char → List (List Char)
  | [], acc => [acc.reverse]
  | c :: cs, acc =>
      if c = ',' then acc.reverse :: splitCommaAux cs []
      else splitCommaAux cs (c :: acc)

/-- Python `str.strip()` (restricted to ASCII whitespace). -/
def pyStrip (s : String) : String :=
  String.mk ((s.toList.dropWhile isSpaceChar).reverse.dropWhile isSpaceChar).reverse

/-- The identifier parsing of `create_job` (api/server.py line 46):
split on commas, strip whitespace, drop empties
(`[a.strip() for a in asins.split(",") if a.strip()]`). -/
def parseAsins (s : String) : List String :=
  ((splitCommaAux s.toList []).map (fun cs => pyStrip (String.mk cs))).filter
    (fun a => a != "")

/-- `create_job` (api/server.py lines 37-68) restricted to its
registration effect: an identifiers string yielding no identifiers is
rejected with HTTP 400 `"Lista ASIN vuota"` and no job is created;
otherwise a job is registered. -/
def createJob (jobs : List String) (asinsStr : String) (newId : String) :
    Except (Nat × String) String × List String :=
  if parseAsins asinsStr = [] then (.error (400, "Lista ASIN vuota"), jobs)
  else (.ok newId, jobs ++ [newId])

/-- `AmazonBatchWorkflow.run` (lines 557-593): an empty identifier list
raises `ValueError("Lista ASIN vuota")` before the graph is built or
invoked, so no session is opened and no summary written — those effects
exist only inside the machine run the error branch never starts. -/
def runBatch (env : BatchEnv) (fuel : Nat) (asins : List String) : Except String Machine :=
  if asins = [] then .error "Lista ASIN vuota"
  else .ok (bsteps env fuel (initMachine asins))

/-- C10: the batch run rejects the empty identifier list with the
`ValueError` message before any machine step runs, and `create_job`
answers HTTP 400 without registering a job whenever the identifiers
string parses to no identifiers. -/
theorem empty_identifier_list_rejected (env : BatchEnv) (fuel : Nat)
    (jobs : List String) (s : String) (newId : String)
    (hempty : parseAsins s = []) :
    runBatch env fuel [] = .error "Lista ASIN vuota"
    ∧ createJob jobs s newId = (.error (400, "Lista ASIN vuota"), jobs) := by
  refine ⟨rfl, ?_⟩
  simp [createJob, hempty]

/-- C10 witness: a whitespace-and-commas identifiers string is rejected
and the job map is unchanged. -/
theorem empty_identifier_list_rejected_witness :
    createJob ["job_0"] " , ," "job_1" = (.error (400, "Lista ASIN vuota"), ["job_0"]) :=
  (empty_identifier_list_rejected envHappy 0 ["job_0"] " , ," "job_1" (by decide)).2

end ReviewAgent
